import Mathlib

/-!
Verification development for the PostgreSQL administration tool
(storage/query core in `server/storage.ts` + HTTP handlers in
`server/routes.ts`).

The TypeScript source is shallowly embedded:

* `DatabaseStorage`'s mutable fields (`connectionPools : Map<number, Pool>`
  and the metadata store reached through drizzle) become an explicit
  `Storage` record threaded through every operation.
* `pg.Pool` construction is modelled by allocating a `Pool` value carrying
  the exact config object the source passes to `new Pool(...)`; the
  `createdPools` / `closedPids` fields of `Storage` are instrumentation
  recording every construction and every `pool.end()` call.
* Network effects (session acquisition in `testConnection`, `pool.query`)
  are resolved by a `World` oracle: an arbitrary but fixed description of
  how the external database targets behave.
* Fallible code returns `Except String` (the source throws plain `Error`
  objects whose only payload is the message string).
* `async`/`await` is modelled by sequential state passing, except for the
  dedicated interleaving semantics of `getConnectionPool` used for the
  concurrency analysis, which splits the method at its single `await`
  suspension point.
-/

namespace TestDb

/-- Connection profile rows of the `db_connections` metadata table.  The
shared schema module itself is not part of the sources at hand; the field
list follows the fields the storage layer and the HTTP handlers read and
write (surrogate `id` plus display name and the six connection-affecting
fields). -/
structure DbConnection where
  id : Nat
  name : String
  host : String
  port : Nat
  database : String
  username : String
  password : String
  ssl : Bool
deriving DecidableEq, Repr

/-- Payload accepted by `createConnection` (`InsertDbConnection`): a profile
without the surrogate identifier. -/
structure InsertDbConnection where
  name : String
  host : String
  port : Nat
  database : String
  username : String
  password : String
  ssl : Bool
deriving DecidableEq, Repr

/-- Value of the `ssl` option handed to `new Pool(...)`: the source passes
either `false` or the object `{ rejectUnauthorized: false }`. -/
inductive SslOption where
  | off
  | rejectUnauthorizedFalse
deriving DecidableEq, Repr

/-- Translation of the TypeScript expression
`connection.ssl ? { rejectUnauthorized: false } : false`. -/
def sslOptionOf (ssl : Bool) : SslOption :=
  if ssl then .rejectUnauthorizedFalse else .off

/-- Configuration object passed to `new Pool(...)`. -/
structure PoolConfig where
  host : String
  port : Nat
  database : String
  user : String
  password : String
  ssl : SslOption
  connectionTimeoutMillis : Option Nat
deriving DecidableEq, Repr

/-- A constructed `pg.Pool` instance: the allocation-order identifier `pid`
distinguishes distinct instances built from equal configs. -/
structure Pool where
  pid : Nat
  config : PoolConfig
deriving DecidableEq, Repr

/-- Lookup in the `connectionPools : Map<number, Pool>` cache
(`has` + `get`). -/
def cacheFind (m : List (Nat × Pool)) (connectionId : Nat) : Option Pool :=
  (m.find? (fun e => e.1 == connectionId)).map (fun e => e.2)

/-- `Map.set`: bind `connectionId` to `pool`, replacing any previous
binding. -/
def cacheSet (m : List (Nat × Pool)) (connectionId : Nat) (pool : Pool) :
    List (Nat × Pool) :=
  (connectionId, pool) :: m.filter (fun e => e.1 != connectionId)

/-- `Map.delete`. -/
def cacheDelete (m : List (Nat × Pool)) (connectionId : Nat) :
    List (Nat × Pool) :=
  m.filter (fun e => e.1 != connectionId)

/-- Combined state of a `DatabaseStorage` instance together with the
metadata store behind drizzle. `createdPools` lists every pool ever
constructed (in allocation order) and `closedPids` every pool on which
`end()` was called; both are pure instrumentation. -/
structure Storage where
  profiles : List DbConnection
  nextId : Nat
  connectionPools : List (Nat × Pool)
  nextPid : Nat
  createdPools : List Pool
  closedPids : List Nat
deriving DecidableEq, Repr

/-- Embedding of `DatabaseStorage.getConnection`: first row of the metadata
table whose `id` matches. -/
def getConnection (s : Storage) (id : Nat) : Option DbConnection :=
  s.profiles.find? (fun c => c.id == id)

/-- Config built by `getConnectionPool`'s `new Pool({...})` call: exactly
the six connection-affecting fields of the profile, no timeout. -/
def poolConfigOf (c : DbConnection) : PoolConfig :=
  { host := c.host
    port := c.port
    database := c.database
    user := c.username
    password := c.password
    ssl := sslOptionOf c.ssl
    connectionTimeoutMillis := none }

/-- Embedding of `DatabaseStorage.getConnectionPool` run without
interference (its two awaited steps execute back to back). -/
def getConnectionPool (s : Storage) (connectionId : Nat) :
    Except String Pool × Storage :=
  match cacheFind s.connectionPools connectionId with
  | some pool => (.ok pool, s)
  | none =>
    match getConnection s connectionId with
    | none =>
      (.error ("Connection with ID " ++ toString connectionId ++ " not found"), s)
    | some connection =>
      let pool : Pool := { pid := s.nextPid, config := poolConfigOf connection }
      (.ok pool,
        { s with
            connectionPools := cacheSet s.connectionPools connectionId pool
            nextPid := s.nextPid + 1
            createdPools := s.createdPools ++ [pool] })

/-- C3: `resolve(profileId)` returns the cached pool and leaves the state
unchanged on a cache hit; on a miss with an unknown profile it fails with
the not-found error and changes nothing; on a miss with a stored profile it
constructs a pool from exactly the six connection-affecting fields
(`poolConfigOf`) and caches it under the identifier before returning it. -/
theorem c3_resolve (s : Storage) (connectionId : Nat) :
    (∀ p, cacheFind s.connectionPools connectionId = some p →
      getConnectionPool s connectionId = (.ok p, s))
  ∧ (cacheFind s.connectionPools connectionId = none →
      getConnection s connectionId = none →
      getConnectionPool s connectionId =
        (.error ("Connection with ID " ++ toString connectionId ++ " not found"), s))
  ∧ (∀ c, cacheFind s.connectionPools connectionId = none →
      getConnection s connectionId = some c →
      getConnectionPool s connectionId =
        (.ok { pid := s.nextPid, config := poolConfigOf c },
         { s with
             connectionPools := cacheSet s.connectionPools connectionId
               { pid := s.nextPid, config := poolConfigOf c }
             nextPid := s.nextPid + 1
             createdPools := s.createdPools ++
               [{ pid := s.nextPid, config := poolConfigOf c }] })) := by
  refine ⟨?_, ?_, ?_⟩ <;> intros <;> simp_all [getConnectionPool]

/-- Sample profile used by concrete witnesses. -/
def connA : DbConnection :=
  { id := 1, name := "prod", host := "db.example.com", port := 5432
    database := "appdb", username := "admin", password := "secret"
    ssl := true }

/-- Pool as `getConnectionPool` would build it for `connA`. -/
def poolA : Pool := { pid := 0, config := poolConfigOf connA }

/-- Storage whose cache already holds a pool for profile 1. -/
def storageHit : Storage :=
  { profiles := [connA], nextId := 2
    connectionPools := [(1, poolA)], nextPid := 1
    createdPools := [poolA], closedPids := [] }

/-- Empty storage. -/
def storageEmpty : Storage :=
  { profiles := [], nextId := 1, connectionPools := [], nextPid := 0
    createdPools := [], closedPids := [] }

/-- Storage holding profile 1 but no cached pool. -/
def storageMiss : Storage :=
  { profiles := [connA], nextId := 2, connectionPools := [], nextPid := 0
    createdPools := [], closedPids := [] }

/-- Witness for C3: the three branches evaluated at concrete states. -/
theorem c3_resolve_witness :
    getConnectionPool storageHit 1 = (.ok poolA, storageHit)
  ∧ getConnectionPool storageEmpty 1 =
      (.error "Connection with ID 1 not found", storageEmpty)
  ∧ getConnectionPool storageMiss 1 =
      (.ok poolA,
       { storageMiss with
           connectionPools := cacheSet storageMiss.connectionPools 1 poolA
           nextPid := 1
           createdPools := [poolA] }) :=
  ⟨(c3_resolve storageHit 1).1 poolA (by decide),
   (c3_resolve storageEmpty 1).2.1 (by decide) (by decide),
   (c3_resolve storageMiss 1).2.2 connA (by decide) (by decide)⟩

/-- Partial profile payload (`Partial<InsertDbConnection>`) accepted by
`updateConnection`; absent keys are `none`. -/
structure UpdateDbConnection where
  name : Option String
  host : Option String
  port : Option Nat
  database : Option String
  username : Option String
  password : Option String
  ssl : Option Bool
deriving DecidableEq, Repr

/-- Effect of drizzle's `.set(partial)` on one row: fields present in the
partial overwrite the row, absent fields keep their value. -/
def applyUpdate (u : UpdateDbConnection) (c : DbConnection) : DbConnection :=
  { id := c.id
    name := u.name.getD c.name
    host := u.host.getD c.host
    port := u.port.getD c.port
    database := u.database.getD c.database
    username := u.username.getD c.username
    password := u.password.getD c.password
    ssl := u.ssl.getD c.ssl }

/-- Embedding of `DatabaseStorage.updateConnection`: updates the matching
metadata rows and returns the first updated row (or `none`); then, if a
pool is cached for the identifier, deletes the cache entry.  The source
performs no `pool.end()` call on this path, so `closedPids` is untouched. -/
def updateConnection (s : Storage) (id : Nat) (u : UpdateDbConnection) :
    Option DbConnection × Storage :=
  let updatedRow := (getConnection s id).map (applyUpdate u)
  let profiles := s.profiles.map (fun c => if c.id == id then applyUpdate u c else c)
  let pools :=
    if (cacheFind s.connectionPools id).isSome then
      cacheDelete s.connectionPools id
    else s.connectionPools
  (updatedRow, { s with profiles := profiles, connectionPools := pools })

/-- Embedding of `DatabaseStorage.deleteConnection`: deletes the matching
metadata rows, then, if a pool is cached for the identifier, awaits
`pool.end()` (recorded in `closedPids`) and deletes the cache entry.
Returns whether any row was deleted. -/
def deleteConnection (s : Storage) (id : Nat) : Bool × Storage :=
  let removed := s.profiles.filter (fun c => c.id == id)
  let profiles := s.profiles.filter (fun c => c.id != id)
  match cacheFind s.connectionPools id with
  | some pool =>
    (removed.length != 0,
      { s with
          profiles := profiles
          connectionPools := cacheDelete s.connectionPools id
          closedPids := s.closedPids ++ [pool.pid] })
  | none => (removed.length != 0, { s with profiles := profiles })

/-- Deleting a key from the pool cache makes lookups for it miss. -/
theorem cacheFind_cacheDelete (m : List (Nat × Pool)) (id : Nat) :
    cacheFind (cacheDelete m id) id = none := by
  simp only [cacheFind, cacheDelete, Option.map_eq_none', List.find?_eq_none,
    List.mem_filter]
  intro e he
  simpa using he.2

/-- Renaming-only update payload used in the counterexample. -/
def updName : UpdateDbConnection :=
  { name := some "renamed", host := none, port := none, database := none
    username := none, password := none, ssl := none }

/-- Counterexample to C4: starting from a state whose cache holds `poolA`
(pid 0) for profile 1, the update path removes the cache entry but never
calls `end()` on the displaced pool — `closedPids` stays empty, so the
superseded pool's sessions are not closed. -/
theorem c4_counterexample :
    (updateConnection storageHit 1 updName).2.connectionPools = []
  ∧ (updateConnection storageHit 1 updName).2.closedPids = []
  ∧ 0 ∉ (updateConnection storageHit 1 updName).2.closedPids := by decide

/-- C4 as amended: the update path removes the cache entry (if any) but
closes nothing; the delete path closes the cached pool's sessions and
removes the entry; after either, a resolve for the identifier misses the
cache and (when the profile still exists) constructs a brand-new pool. -/
theorem c4_evict_amended :
    (∀ s id u,
        cacheFind (updateConnection s id u).2.connectionPools id = none
      ∧ (updateConnection s id u).2.closedPids = s.closedPids)
  ∧ (∀ s id pool, cacheFind s.connectionPools id = some pool →
        cacheFind (deleteConnection s id).2.connectionPools id = none
      ∧ (deleteConnection s id).2.closedPids = s.closedPids ++ [pool.pid])
  ∧ (∀ s id c, cacheFind s.connectionPools id = none →
      getConnection s id = some c →
        (getConnectionPool s id).1 =
          .ok { pid := s.nextPid, config := poolConfigOf c }
      ∧ (getConnectionPool s id).2.createdPools =
          s.createdPools ++ [{ pid := s.nextPid, config := poolConfigOf c }]) := by
  refine ⟨fun s id u => ⟨?_, ?_⟩, fun s id pool h => ⟨?_, ?_⟩, fun s id c h1 h2 => ⟨?_, ?_⟩⟩
  · by_cases hc : (cacheFind s.connectionPools id).isSome
    · simp [updateConnection, hc, cacheFind_cacheDelete]
    · rw [Option.not_isSome_iff_eq_none] at hc
      simp [updateConnection, hc]
  · simp [updateConnection]
  · simp [deleteConnection, h, cacheFind_cacheDelete]
  · simp [deleteConnection, h]
  · simp [getConnectionPool, h1, h2]
  · simp [getConnectionPool, h1, h2]

/-- Witness for C4's amended theorem: the three parts evaluated at concrete
states (cached pool for profile 1, then delete path, then re-resolve). -/
theorem c4_evict_amended_witness :
    (cacheFind (updateConnection storageHit 1 updName).2.connectionPools 1 = none
      ∧ (updateConnection storageHit 1 updName).2.closedPids = storageHit.closedPids)
  ∧ (cacheFind (deleteConnection storageHit 1).2.connectionPools 1 = none
      ∧ (deleteConnection storageHit 1).2.closedPids = storageHit.closedPids ++ [0])
  ∧ ((getConnectionPool storageMiss 1).1 = .ok poolA
      ∧ (getConnectionPool storageMiss 1).2.createdPools =
          storageMiss.createdPools ++ [poolA]) :=
  ⟨c4_evict_amended.1 storageHit 1 updName,
   c4_evict_amended.2.1 storageHit 1 poolA (by decide),
   c4_evict_amended.2.2 storageMiss 1 connA (by decide) (by decide)⟩

/-- Decidable equality for `Except`, needed to evaluate caller results. -/
instance exceptDecEq {ε α : Type} [DecidableEq ε] [DecidableEq α] :
    DecidableEq (Except ε α) := fun x y =>
  match x, y with
  | .ok a, .ok b =>
    if h : a = b then isTrue (by rw [h]) else isFalse (fun hh => h (Except.ok.inj hh))
  | .error a, .error b =>
    if h : a = b then isTrue (by rw [h]) else isFalse (fun hh => h (Except.error.inj hh))
  | .ok _, .error _ => isFalse (fun hh => Except.noConfusion hh)
  | .error _, .ok _ => isFalse (fun hh => Except.noConfusion hh)

/-- Program counter of one in-flight `getConnectionPool(connectionId)` call,
split at the method's single suspension point: the cache check runs
synchronously, then the call suspends at `await this.getConnection(...)`;
on resumption the profile lookup result is observed and — without further
suspension — the pool is constructed, cached and returned. -/
inductive CallerPc where
  | start
  | awaitingProfile
  | done (result : Except String Pool)
deriving DecidableEq, Repr

/-- Single scheduler step of one in-flight `getConnectionPool` call against
the shared `Storage`. -/
def stepCaller (connectionId : Nat) (pc : CallerPc) (s : Storage) :
    CallerPc × Storage :=
  match pc with
  | .start =>
    match cacheFind s.connectionPools connectionId with
    | some pool => (.done (.ok pool), s)
    | none => (.awaitingProfile, s)
  | .awaitingProfile =>
    match getConnection s connectionId with
    | none =>
      (.done (.error ("Connection with ID " ++ toString connectionId ++ " not found")), s)
    | some connection =>
      let pool : Pool := { pid := s.nextPid, config := poolConfigOf connection }
      (.done (.ok pool),
        { s with
            connectionPools := cacheSet s.connectionPools connectionId pool
            nextPid := s.nextPid + 1
            createdPools := s.createdPools ++ [pool] })
  | .done r => (.done r, s)

/-- Two concurrent `getConnectionPool` calls (callers `a` and `b`) over the
shared storage. -/
structure RaceState where
  a : CallerPc
  b : CallerPc
  storage : Storage
deriving DecidableEq, Repr

/-- Run one step of caller `b` (when `which` is true) or caller `a`. -/
def stepRace (connectionId : Nat) (which : Bool) (r : RaceState) : RaceState :=
  if which then
    let step := stepCaller connectionId r.b r.storage
    { r with b := step.1, storage := step.2 }
  else
    let step := stepCaller connectionId r.a r.storage
    { r with a := step.1, storage := step.2 }

/-- Run a whole schedule (list of caller choices). -/
def runRace (connectionId : Nat) : List Bool → RaceState → RaceState
  | [], r => r
  | w :: ws, r => runRace connectionId ws (stepRace connectionId w r)

/-- Both callers start before either has resolved, over a storage that
holds profile 1 but no cached pool. -/
def raceStart : RaceState := { a := .start, b := .start, storage := storageMiss }

/-- The interleaving in which both callers check the cache before either
resumes from its profile-lookup await. -/
def raceSchedule : List Bool := [false, true, false, true]

/-- C2 fails on the code: under the schedule where two first-time callers
both miss the cache before either resumes, `getConnectionPool` constructs
two pools (pids 0 and 1), the callers return different pools, the cache
keeps only the second, and the first is never closed — it leaks. -/
theorem c2_code_bug :
    (runRace 1 raceSchedule raceStart).storage.createdPools =
      [poolA, { pid := 1, config := poolConfigOf connA }]
  ∧ (runRace 1 raceSchedule raceStart).a = .done (.ok poolA)
  ∧ (runRace 1 raceSchedule raceStart).b =
      .done (.ok { pid := 1, config := poolConfigOf connA })
  ∧ poolA ≠ { pid := 1, config := poolConfigOf connA }
  ∧ cacheFind (runRace 1 raceSchedule raceStart).storage.connectionPools 1 =
      some { pid := 1, config := poolConfigOf connA }
  ∧ poolA.pid ∉ (runRace 1 raceSchedule raceStart).storage.closedPids := by
  decide

/-- Field descriptor of a driver result (`result.fields` entry): the two
members the source reads plus representative further driver members, so
that the source's projection to `{name, dataTypeID}` is visible. -/
structure RawField where
  name : String
  dataTypeID : Nat
  tableID : Nat
  format : String
deriving DecidableEq, Repr

/-- JSON-ish cell values appearing in driver rows. -/
inductive Val where
  | vstr (s : String)
  | vint (n : Int)
  | vbool (b : Bool)
  | vnull
deriving DecidableEq, Repr

/-- One driver row: a mapping from column name to value. -/
abbrev Row := List (String × Val)

/-- Raw result of `pool.query(...)` as the source consumes it. -/
structure RawResult where
  rows : List Row
  rowCount : Nat
  fields : List RawField
deriving DecidableEq, Repr

/-- Oracle for everything beyond the process boundary: whether a session
can be acquired from a pool with the given config, whether `pool.end()`
succeeds, and what `pool.query(text, params)` resolves or rejects with
(rejections carry the driver's error message). -/
structure World where
  connectOk : PoolConfig → Bool
  endOk : PoolConfig → Bool
  query : PoolConfig → String → List String → Except String RawResult

/-- Instrumentation of one `testConnection` run: configs of the pools it
opened, and how many times `end()` was invoked on the dedicated pool. -/
structure ProbeTrace where
  openedConfigs : List PoolConfig
  endCalls : Nat
deriving DecidableEq, Repr

/-- Config of the throwaway pool built by `testConnection`: the six
connection-affecting fields plus `connectionTimeoutMillis: 5000`. -/
def testPoolConfigOf (connection : InsertDbConnection) : PoolConfig :=
  { host := connection.host
    port := connection.port
    database := connection.database
    user := connection.username
    password := connection.password
    ssl := sslOptionOf connection.ssl
    connectionTimeoutMillis := some 5000 }

/-- Embedding of `DatabaseStorage.testConnection`.  Paths of the source:
acquire succeeds → `release()` (synchronous, modelled as always
succeeding) → `end()` → resolve `true`; if that `end()` rejects, the outer
catch runs and calls `end()` a second time (its own failure is swallowed)
→ resolve `false`; acquire fails → catch calls `end()` once (failure
swallowed) → resolve `false`.  Every path resolves — the promise never
rejects — and the registry (`connectionPools`) is never touched. -/
def testConnection (w : World) (s : Storage) (connection : InsertDbConnection) :
    Bool × Storage × ProbeTrace :=
  let config := testPoolConfigOf connection
  if w.connectOk config then
    if w.endOk config then
      (true, s, { openedConfigs := [config], endCalls := 1 })
    else
      (false, s, { openedConfigs := [config], endCalls := 2 })
  else
    (false, s, { openedConfigs := [config], endCalls := 1 })

/-- C5: the probe opens exactly one dedicated pool whose config carries the
5-second connection timeout, calls `end()` on it on every exit path,
returns `true` only if session acquisition succeeded, and leaves the
storage (in particular the pool registry) untouched. -/
theorem c5_probe (w : World) (s : Storage) (connection : InsertDbConnection) :
    ((testConnection w s connection).2.2.openedConfigs =
        [testPoolConfigOf connection]
      ∧ (testPoolConfigOf connection).connectionTimeoutMillis = some 5000)
  ∧ 1 ≤ (testConnection w s connection).2.2.endCalls
  ∧ ((testConnection w s connection).1 = true →
      w.connectOk (testPoolConfigOf connection) = true)
  ∧ (testConnection w s connection).2.1 = s := by
  have hto : (testPoolConfigOf connection).connectionTimeoutMillis = some 5000 := rfl
  by_cases hc : w.connectOk (testPoolConfigOf connection) = true <;>
    by_cases he : w.endOk (testPoolConfigOf connection) = true <;>
    simp [testConnection, hc, he, hto]

/-- World in which every target is reachable and disposal succeeds. -/
def worldUp : World :=
  { connectOk := fun _ => true
    endOk := fun _ => true
    query := fun _ _ _ => .error "unused" }

/-- World in which no target is reachable. -/
def worldDown : World :=
  { connectOk := fun _ => false
    endOk := fun _ => true
    query := fun _ _ _ => .error "connection refused" }

/-- Candidate profile payload used by concrete probe runs. -/
def insertA : InsertDbConnection :=
  { name := "prod", host := "db.example.com", port := 5432
    database := "appdb", username := "admin", password := "secret"
    ssl := true }

/-- Witness for C5: the probe evaluated against a reachable target. -/
theorem c5_probe_witness :
    ((testConnection worldUp storageEmpty insertA).2.2.openedConfigs =
        [testPoolConfigOf insertA]
      ∧ (testPoolConfigOf insertA).connectionTimeoutMillis = some 5000)
  ∧ 1 ≤ (testConnection worldUp storageEmpty insertA).2.2.endCalls
  ∧ worldUp.connectOk (testPoolConfigOf insertA) = true
  ∧ (testConnection worldUp storageEmpty insertA).2.1 = storageEmpty :=
  ⟨(c5_probe worldUp storageEmpty insertA).1,
   (c5_probe worldUp storageEmpty insertA).2.1,
   (c5_probe worldUp storageEmpty insertA).2.2.1 (by decide),
   (c5_probe worldUp storageEmpty insertA).2.2.2⟩

/-- Row produced by `db.insert(dbConnections).values(connection).returning()`:
the payload plus the next surrogate identifier. -/
def rowOfInsert (s : Storage) (connection : InsertDbConnection) : DbConnection :=
  { id := s.nextId
    name := connection.name
    host := connection.host
    port := connection.port
    database := connection.database
    username := connection.username
    password := connection.password
    ssl := connection.ssl }

/-- Embedding of `DatabaseStorage.createConnection`: insert and return the
new row. -/
def createConnection (s : Storage) (connection : InsertDbConnection) :
    DbConnection × Storage :=
  let row := rowOfInsert s connection
  (row, { s with profiles := s.profiles ++ [row], nextId := s.nextId + 1 })

/-- Profile shape sent to HTTP clients.  Both sanitization forms in
`routes.ts` — `const { password, ...safeConnection } = conn` and
`{ ...conn, password: undefined }` — serialize to JSON without a
`password` member, so both are modelled by this password-free record. -/
structure SafeConnection where
  id : Nat
  name : String
  host : String
  port : Nat
  database : String
  username : String
  ssl : Bool
deriving DecidableEq, Repr

/-- Strip the password from a profile before responding. -/
def sanitize (c : DbConnection) : SafeConnection :=
  { id := c.id, name := c.name, host := c.host, port := c.port
    database := c.database, username := c.username, ssl := c.ssl }

/-- Bodies of the connection-profile HTTP responses. -/
inductive ResponseBody where
  | connection (c : SafeConnection)
  | connectionList (cs : List SafeConnection)
  | message (m : String)
deriving DecidableEq, Repr

/-- HTTP response: status code plus JSON body. -/
structure HttpResponse where
  status : Nat
  body : ResponseBody
deriving DecidableEq, Repr

/-- Embedding of the `POST /api/connections` handler for an
already-validated body.  The source awaits `storage.testConnection` inside
a try/catch, but `testConnection` resolves with a boolean and never
rejects (every failure is caught internally), so the catch branch is
unreachable and the boolean is discarded: the handler always proceeds to
`createConnection` and answers 201 with the password-stripped row. -/
def postConnections (w : World) (s : Storage) (connection : InsertDbConnection) :
    HttpResponse × Storage :=
  let probe := testConnection w s connection
  let created := createConnection probe.2.1 connection
  ({ status := 201, body := .connection (sanitize created.1) }, created.2)

/-- Unreachable candidate profile. -/
def insertBad : InsertDbConnection :=
  { name := "bad", host := "unreachable.example.invalid", port := 5432
    database := "appdb", username := "admin", password := "secret"
    ssl := false }

/-- C1 fails on the code: in a world where session acquisition fails for
the candidate's config, the probe resolves `false`, yet the create handler
— which never inspects that boolean — persists the profile in the metadata
store and answers 201.  No ConnectionFailure reaches the caller. -/
theorem c1_code_bug :
    (testConnection worldDown storageEmpty insertBad).1 = false
  ∧ (postConnections worldDown storageEmpty insertBad).1 =
      { status := 201, body := .connection (sanitize (rowOfInsert storageEmpty insertBad)) }
  ∧ (postConnections worldDown storageEmpty insertBad).2.profiles =
      [rowOfInsert storageEmpty insertBad] := by
  decide

/-- Field descriptor shape produced by `executeQuery`'s mapping step. -/
structure ExecField where
  name : String
  dataTypeID : Nat
deriving DecidableEq, Repr

/-- Normalized result shape `{rows, rowCount, fields}` returned by
`executeQuery`. -/
structure QueryOut where
  rows : List Row
  rowCount : Nat
  fields : List ExecField
deriving DecidableEq, Repr

/-- Embedding of `DatabaseStorage.executeQuery`: resolve the pool, issue the
caller's SQL text unmodified and unparameterized, normalize the driver
result, and wrap a driver rejection's message in
`Query execution failed: <message>`.  The third component records the
(text, params) of every query issued to the pool. -/
def executeQuery (w : World) (s : Storage) (connectionId : Nat) (query : String) :
    Except String QueryOut × Storage × List (String × List String) :=
  match getConnectionPool s connectionId with
  | (.error e, s') => (.error e, s', [])
  | (.ok pool, s') =>
    match w.query pool.config query [] with
    | .ok result =>
      (.ok { rows := result.rows
             rowCount := result.rowCount
             fields := result.fields.map
               (fun f => { name := f.name, dataTypeID := f.dataTypeID }) },
       s', [(query, [])])
    | .error e => (.error ("Query execution failed: " ++ e), s', [(query, [])])

/-- C6: once the pool resolves, `execute` issues the statement exactly as
given (once, with no parameters); on success it returns the driver's row
sequence, row count and the (name, dataTypeID) field descriptors; on a
driver failure it fails with the QueryFailure message
`Query execution failed: <driver message>`, which contains the driver
message verbatim. -/
theorem c6_execute (w : World) (s s' : Storage) (pool : Pool) (connectionId : Nat)
    (sql : String) (hres : getConnectionPool s connectionId = (.ok pool, s')) :
    (executeQuery w s connectionId sql).2.2 = [(sql, [])]
  ∧ (∀ r, w.query pool.config sql [] = .ok r →
      (executeQuery w s connectionId sql).1 =
        .ok { rows := r.rows
              rowCount := r.rowCount
              fields := r.fields.map
                (fun f => { name := f.name, dataTypeID := f.dataTypeID }) })
  ∧ (∀ e, w.query pool.config sql [] = .error e →
        (executeQuery w s connectionId sql).1 =
          .error ("Query execution failed: " ++ e)
      ∧ ∃ pre, "Query execution failed: " ++ e = pre ++ e) := by
  refine ⟨?_, fun r hq => by simp [executeQuery, hres, hq],
         fun e hq => ⟨by simp [executeQuery, hres, hq],
                      "Query execution failed: ", rfl⟩⟩
  cases hq2 : w.query pool.config sql [] <;> simp [executeQuery, hres, hq2]

/-- World whose targets answer `SELECT 1 AS x` as PostgreSQL does and
reject any other statement with a driver error message. -/
def worldSelect1 : World :=
  { connectOk := fun _ => true
    endOk := fun _ => true
    query := fun _ q _ =>
      if q = "SELECT 1 AS x" then
        .ok { rows := [[("x", .vint 1)]]
              rowCount := 1
              fields := [{ name := "x", dataTypeID := 23, tableID := 0, format := "text" }] }
      else .error "relation does not exist" }

/-- Witness for C6: `execute(p, "SELECT 1 AS x")` yields one row `{x: 1}`,
`rowCount = 1` and one field named `x`; a failing statement surfaces the
driver message inside the QueryFailure message. -/
theorem c6_execute_witness :
    (executeQuery worldSelect1 storageHit 1 "SELECT 1 AS x").2.2 =
      [("SELECT 1 AS x", [])]
  ∧ (executeQuery worldSelect1 storageHit 1 "SELECT 1 AS x").1 =
      .ok { rows := [[("x", .vint 1)]]
            rowCount := 1
            fields := [{ name := "x", dataTypeID := 23 }] }
  ∧ (executeQuery worldSelect1 storageHit 1 "SELECT * FROM nonexistent_table").1 =
      .error ("Query execution failed: " ++ "relation does not exist") :=
  ⟨(c6_execute worldSelect1 storageHit storageHit poolA 1 "SELECT 1 AS x"
      (by decide)).1,
   (c6_execute worldSelect1 storageHit storageHit poolA 1 "SELECT 1 AS x"
      (by decide)).2.1
      { rows := [[("x", .vint 1)]]
        rowCount := 1
        fields := [{ name := "x", dataTypeID := 23, tableID := 0, format := "text" }] }
      (by decide),
   ((c6_execute worldSelect1 storageHit storageHit poolA 1 "SELECT * FROM nonexistent_table"
      (by decide)).2.2 "relation does not exist" (by decide)).1⟩

/-- Accumulating base-10 parse of a character list; stops with `none` at
the first character outside the code-point range of the decimal digits
(48–57). -/
def parseDecAux : List Char → Nat → Option Nat
  | [], acc => some acc
  | c :: cs, acc =>
    if c.toNat < 48 ∨ 57 < c.toNat then none
    else parseDecAux cs (acc * 10 + (c.toNat - 48))

/-- Model of `parseInt(x, 10)` for the cell shapes this code meets: an
all-digit decimal string parses to its value, a numeric value parses to
itself, and anything else — including a missing property — gives NaN,
modelled as `none`.  (JavaScript's leading-digit partial parse is never
exercised: the `count` cell PostgreSQL returns is all digits.) -/
def parseIntVal : Val → Option Int
  | .vstr s =>
    match s.data with
    | [] => none
    | cs => (parseDecAux cs 0).map Int.ofNat
  | .vint n => some n
  | _ => none

/-- JavaScript property access `row[key]` on a driver row: the value if the
column is present, `undefined` (modelled `vnull`) otherwise. -/
def rowVal (r : Row) (key : String) : Val :=
  ((r.find? (fun e => e.1 == key)).map (fun e => e.2)).getD .vnull

/-- Row-count query text built by `getTableSchema` and `getTableData`:
the table name is interpolated into the identifier position with
double-quote wrapping and no further escaping. -/
def countSql (table : String) : String :=
  "SELECT COUNT(*) FROM \"" ++ table ++ "\";"

/-- Page query text built by `getTableData` (template literal with its
exact whitespace): the table name is interpolated double-quote-wrapped and
the numeric literals are interpolated in decimal. -/
def dataSql (table : String) (pageSize offset : Int) : String :=
  "\n      SELECT * FROM \"" ++ table ++ "\"\n      LIMIT " ++
    toString pageSize ++ " OFFSET " ++ toString offset ++ ";\n    "

/-- Embedding of `DatabaseStorage.getTableData`: resolve the pool, issue
the count query, read `rows[0].count` through `parseInt` (an empty row set
would make the property access throw), compute
`offset = (page - 1) * pageSize`, issue the LIMIT/OFFSET query, and return
the page rows with the total. -/
def getTableData (w : World) (s : Storage) (connectionId : Nat) (table : String)
    (page pageSize : Int) :
    Except String (List Row × Option Int) × Storage × List (String × List String) :=
  match getConnectionPool s connectionId with
  | (.error e, s') => (.error e, s', [])
  | (.ok pool, s') =>
    match w.query pool.config (countSql table) [] with
    | .error e => (.error e, s', [(countSql table, [])])
    | .ok countResult =>
      match countResult.rows with
      | [] =>
        (.error "TypeError: cannot read properties of undefined", s',
         [(countSql table, [])])
      | r :: _ =>
        let total := parseIntVal (rowVal r "count")
        let offset := (page - 1) * pageSize
        match w.query pool.config (dataSql table pageSize offset) [] with
        | .error e =>
          (.error e, s',
           [(countSql table, []), (dataSql table pageSize offset, [])])
        | .ok dataResult =>
          (.ok (dataResult.rows, total), s',
           [(countSql table, []), (dataSql table pageSize offset, [])])

/-- Default arguments of `getTableData` in the source signature:
`page = 1`, `pageSize = 50`. -/
def getTableDataDefaults (w : World) (s : Storage) (connectionId : Nat)
    (table : String) :
    Except String (List Row × Option Int) × Storage × List (String × List String) :=
  getTableData w s connectionId table 1 50

/-- C7: `read` issues the count query and the `SELECT * ... LIMIT pageSize
OFFSET (page-1)*pageSize` query against the named table and returns the
backend's page of rows alongside the parsed total; calls without explicit
paging parameters use page 1 and pageSize 50.  The hypotheses pin the
backend to standard PostgreSQL behaviour on those two queries over a table
holding the row list `db`. -/
theorem c7_read (w : World) (s s' : Storage) (pool : Pool) (connectionId : Nat)
    (table : String) (page pageSize : Int) (db : List Row) (cs : String)
    (rc1 rc2 : Nat) (f1 f2 : List RawField)
    (hres : getConnectionPool s connectionId = (.ok pool, s'))
    (hcount : w.query pool.config (countSql table) [] =
      .ok { rows := [[("count", .vstr cs)]], rowCount := rc1, fields := f1 })
    (hcs : parseIntVal (.vstr cs) = some (db.length : Int))
    (hdata : w.query pool.config (dataSql table pageSize ((page - 1) * pageSize)) [] =
      .ok { rows := (db.drop ((page - 1) * pageSize).toNat).take pageSize.toNat
            rowCount := rc2, fields := f2 }) :
    getTableData w s connectionId table page pageSize =
      (.ok ((db.drop ((page - 1) * pageSize).toNat).take pageSize.toNat,
            some (db.length : Int)),
       s',
       [(countSql table, []), (dataSql table pageSize ((page - 1) * pageSize), [])])
  ∧ getTableDataDefaults w s connectionId table =
      getTableData w s connectionId table 1 50 := by
  refine ⟨?_, rfl⟩
  simp [getTableData, hres, hcount, hdata, rowVal, hcs]

/-- Sample row of the paginated table. -/
def row1 : Row := [("n", .vint 1)]

/-- The 25-row table of the paginated-reader acceptance check. -/
def dbT : List Row := List.replicate 25 row1

/-- World whose target holds the 25-row table `t` and answers the three
queries the paginated reader issues for pages 1 and 3 of size 10. -/
def worldPag : World :=
  { connectOk := fun _ => true
    endOk := fun _ => true
    query := fun _ q _ =>
      if q = countSql "t" then
        .ok { rows := [[("count", .vstr "25")]], rowCount := 1, fields := [] }
      else if q = dataSql "t" 10 0 then
        .ok { rows := dbT.take 10, rowCount := 10, fields := [] }
      else if q = dataSql "t" 10 20 then
        .ok { rows := (dbT.drop 20).take 10, rowCount := 5, fields := [] }
      else .error "unexpected statement" }

/-- Witness for C7: on the 25-row table, page 1 of size 10 yields 10 rows
with total 25, and page 3 of size 10 yields 5 rows. -/
theorem c7_read_witness :
    getTableData worldPag storageHit 1 "t" 1 10 =
      (.ok ((dbT.drop 0).take 10, some 25), storageHit,
       [(countSql "t", []), (dataSql "t" 10 0, [])])
  ∧ getTableData worldPag storageHit 1 "t" 3 10 =
      (.ok ((dbT.drop 20).take 10, some 25), storageHit,
       [(countSql "t", []), (dataSql "t" 10 20, [])])
  ∧ ((dbT.drop 0).take 10).length = 10
  ∧ ((dbT.drop 20).take 10).length = 5
  ∧ dbT.length = 25 :=
  ⟨(c7_read worldPag storageHit storageHit poolA 1 "t" 1 10 dbT "25" 1 10 [] []
      (by decide) (by decide) (by decide) (by decide)).1,
   (c7_read worldPag storageHit storageHit poolA 1 "t" 3 10 dbT "25" 1 5 [] []
      (by decide) (by decide) (by decide) (by decide)).1,
   by decide, by decide, by decide⟩

/-- Column-metadata catalog query of `getTableSchema` (template literal
with its exact whitespace); the table name travels as parameter `$1`. -/
def columnsSql : String :=
  "\n      SELECT \n        column_name, \n        data_type,\n        character_maximum_length,\n        column_default,\n        is_nullable\n      FROM \n        information_schema.columns\n      WHERE \n        table_schema = \x27public\x27 \n        AND table_name = $1\n      ORDER BY \n        ordinal_position;\n    "

/-- Primary-key catalog query of `getTableSchema`. -/
def pkSql : String :=
  "\n      SELECT\n        kcu.column_name\n      FROM\n        information_schema.table_constraints tc\n        JOIN information_schema.key_column_usage kcu\n          ON tc.constraint_name = kcu.constraint_name\n          AND tc.table_schema = kcu.table_schema\n      WHERE\n        tc.constraint_type = \x27PRIMARY KEY\x27\n        AND tc.table_schema = \x27public\x27\n        AND tc.table_name = $1;\n    "

/-- Foreign-key catalog query of `getTableSchema`. -/
def fkSql : String :=
  "\n      SELECT\n        kcu.column_name,\n        ccu.table_name AS foreign_table_name,\n        ccu.column_name AS foreign_column_name\n      FROM\n        information_schema.table_constraints tc\n        JOIN information_schema.key_column_usage kcu\n          ON tc.constraint_name = kcu.constraint_name\n          AND tc.table_schema = kcu.table_schema\n        JOIN information_schema.constraint_column_usage ccu\n          ON ccu.constraint_name = tc.constraint_name\n          AND ccu.table_schema = tc.table_schema\n      WHERE\n        tc.constraint_type = \x27FOREIGN KEY\x27\n        AND tc.table_schema = \x27public\x27\n        AND tc.table_name = $1;\n    "

/-- Index catalog query of `getTableSchema`. -/
def indexSql : String :=
  "\n      SELECT\n        indexname,\n        indexdef\n      FROM\n        pg_indexes\n      WHERE\n        schemaname = \x27public\x27\n        AND tablename = $1;\n    "

/-- Descriptor assembled by `getTableSchema`: catalog rows are passed
through unchanged, primary-key rows are projected to their `column_name`
value, and the record count is the parsed count cell. -/
structure TableSchemaOut where
  name : String
  columns : List Row
  primaryKeys : List Val
  foreignKeys : List Row
  indexes : List Row
  recordCount : Option Int
deriving DecidableEq, Repr

/-- Embedding of `DatabaseStorage.getTableSchema`: resolve the pool, issue
the four parameterized catalog queries and the interpolated row-count
query in source order, and assemble the descriptor.  The third component
records the (text, params) of every query issued. -/
def getTableSchema (w : World) (s : Storage) (connectionId : Nat) (table : String) :
    Except String TableSchemaOut × Storage × List (String × List String) :=
  match getConnectionPool s connectionId with
  | (.error e, s') => (.error e, s', [])
  | (.ok pool, s') =>
    match w.query pool.config columnsSql [table] with
    | .error e => (.error e, s', [(columnsSql, [table])])
    | .ok columnsResult =>
      match w.query pool.config pkSql [table] with
      | .error e => (.error e, s', [(columnsSql, [table]), (pkSql, [table])])
      | .ok pkResult =>
        let primaryKeys := pkResult.rows.map (fun r => rowVal r "column_name")
        match w.query pool.config fkSql [table] with
        | .error e =>
          (.error e, s', [(columnsSql, [table]), (pkSql, [table]), (fkSql, [table])])
        | .ok fkResult =>
          match w.query pool.config indexSql [table] with
          | .error e =>
            (.error e, s',
             [(columnsSql, [table]), (pkSql, [table]), (fkSql, [table]),
              (indexSql, [table])])
          | .ok indexResult =>
            match w.query pool.config (countSql table) [] with
            | .error e =>
              (.error e, s',
               [(columnsSql, [table]), (pkSql, [table]), (fkSql, [table]),
                (indexSql, [table]), (countSql table, [])])
            | .ok countResult =>
              match countResult.rows with
              | [] =>
                (.error "TypeError: cannot read properties of undefined", s',
                 [(columnsSql, [table]), (pkSql, [table]), (fkSql, [table]),
                  (indexSql, [table]), (countSql table, [])])
              | r :: _ =>
                (.ok { name := table
                       columns := columnsResult.rows
                       primaryKeys := primaryKeys
                       foreignKeys := fkResult.rows
                       indexes := indexResult.rows
                       recordCount := parseIntVal (rowVal r "count") },
                 s',
                 [(columnsSql, [table]), (pkSql, [table]), (fkSql, [table]),
                  (indexSql, [table]), (countSql table, [])])

/-- Known column definition of the round-trip table. -/
structure ColumnMeta where
  column_name : String
  data_type : String
  character_maximum_length : Option Nat
  column_default : Option String
  is_nullable : Bool
deriving DecidableEq, Repr

/-- Known foreign-key definition of the round-trip table. -/
structure ForeignKeyMeta where
  column_name : String
  foreign_table_name : String
  foreign_column_name : String
deriving DecidableEq, Repr

/-- Known index definition of the round-trip table. -/
structure IndexMeta where
  indexname : String
  indexdef : String
deriving DecidableEq, Repr

/-- Known definition of a table on the target: columns in ordinal-position
order, primary-key column set, foreign keys, indexes, and current rows. -/
structure TableDef where
  columns : List ColumnMeta
  primaryKeys : List String
  foreignKeys : List ForeignKeyMeta
  indexes : List IndexMeta
  rows : List Row
deriving DecidableEq, Repr

/-- Catalog cell for a nullable numeric column. -/
def optNatVal : Option Nat → Val
  | some n => .vint n
  | none => .vnull

/-- Catalog cell for a nullable text column. -/
def optStrVal : Option String → Val
  | some t => .vstr t
  | none => .vnull

/-- Row of `information_schema.columns` (the five selected columns) for a
known column, as PostgreSQL reports it. -/
def encodeColumnRow (c : ColumnMeta) : Row :=
  [("column_name", .vstr c.column_name),
   ("data_type", .vstr c.data_type),
   ("character_maximum_length", optNatVal c.character_maximum_length),
   ("column_default", optStrVal c.column_default),
   ("is_nullable", .vstr (if c.is_nullable then "YES" else "NO"))]

/-- Row of the primary-key catalog query for a key column. -/
def encodePkRow (column : String) : Row := [("column_name", .vstr column)]

/-- Row of the foreign-key catalog query for a known foreign key. -/
def encodeFkRow (fk : ForeignKeyMeta) : Row :=
  [("column_name", .vstr fk.column_name),
   ("foreign_table_name", .vstr fk.foreign_table_name),
   ("foreign_column_name", .vstr fk.foreign_column_name)]

/-- Row of `pg_indexes` for a known index. -/
def encodeIndexRow (i : IndexMeta) : Row :=
  [("indexname", .vstr i.indexname), ("indexdef", .vstr i.indexdef)]

/-- C8: `describe` issues the four catalog queries plus the row-count query
and assembles one descriptor; when the backend reports the known
definition `D` of the table, the returned columns (in ordinal order),
primary keys, foreign keys and indexes match `D` exactly and `recordCount`
equals the number of rows in the table. -/
theorem c8_describe (w : World) (s s' : Storage) (pool : Pool) (connectionId : Nat)
    (table : String) (D : TableDef) (cs : String)
    (rc1 rc2 rc3 rc4 rc5 : Nat) (f1 f2 f3 f4 f5 : List RawField)
    (hres : getConnectionPool s connectionId = (.ok pool, s'))
    (hcol : w.query pool.config columnsSql [table] =
      .ok { rows := D.columns.map encodeColumnRow, rowCount := rc1, fields := f1 })
    (hpk : w.query pool.config pkSql [table] =
      .ok { rows := D.primaryKeys.map encodePkRow, rowCount := rc2, fields := f2 })
    (hfk : w.query pool.config fkSql [table] =
      .ok { rows := D.foreignKeys.map encodeFkRow, rowCount := rc3, fields := f3 })
    (hidx : w.query pool.config indexSql [table] =
      .ok { rows := D.indexes.map encodeIndexRow, rowCount := rc4, fields := f4 })
    (hcnt : w.query pool.config (countSql table) [] =
      .ok { rows := [[("count", .vstr cs)]], rowCount := rc5, fields := f5 })
    (hcs : parseIntVal (.vstr cs) = some (D.rows.length : Int)) :
    getTableSchema w s connectionId table =
      (.ok { name := table
             columns := D.columns.map encodeColumnRow
             primaryKeys := D.primaryKeys.map Val.vstr
             foreignKeys := D.foreignKeys.map encodeFkRow
             indexes := D.indexes.map encodeIndexRow
             recordCount := some (D.rows.length : Int) },
       s',
       [(columnsSql, [table]), (pkSql, [table]), (fkSql, [table]),
        (indexSql, [table]), (countSql table, [])]) := by
  have hmap : (D.primaryKeys.map encodePkRow).map (fun r => rowVal r "column_name") =
      D.primaryKeys.map Val.vstr := by
    rw [List.map_map]; rfl
  simp [getTableSchema, hres, hcol, hpk, hfk, hidx, hcnt, hmap, rowVal, hcs]
  intro a _
  rfl

/-- Known definition of a table `orders` with two columns, primary key
`id`, one foreign key to `customers(id)` and its primary-key index, holding
the given rows. -/
def tableDefOrders (rows : List Row) : TableDef :=
  { columns :=
      [{ column_name := "id", data_type := "integer"
         character_maximum_length := none
         column_default := some "nextval(\x27orders_id_seq\x27::regclass)"
         is_nullable := false },
       { column_name := "customer_id", data_type := "integer"
         character_maximum_length := none
         column_default := none
         is_nullable := true }]
    primaryKeys := ["id"]
    foreignKeys :=
      [{ column_name := "customer_id", foreign_table_name := "customers"
         foreign_column_name := "id" }]
    indexes :=
      [{ indexname := "orders_pkey"
         indexdef := "CREATE UNIQUE INDEX orders_pkey ON public.orders USING btree (id)" }]
    rows := rows }

/-- World whose target reports table `orders` with definition `D` through
the four catalog queries and answers the row-count query with `cs`. -/
def schemaWorld (D : TableDef) (cs : String) : World :=
  { connectOk := fun _ => true
    endOk := fun _ => true
    query := fun _ q _ =>
      if q = columnsSql then
        .ok { rows := D.columns.map encodeColumnRow
              rowCount := D.columns.length, fields := [] }
      else if q = pkSql then
        .ok { rows := D.primaryKeys.map encodePkRow
              rowCount := D.primaryKeys.length, fields := [] }
      else if q = fkSql then
        .ok { rows := D.foreignKeys.map encodeFkRow
              rowCount := D.foreignKeys.length, fields := [] }
      else if q = indexSql then
        .ok { rows := D.indexes.map encodeIndexRow
              rowCount := D.indexes.length, fields := [] }
      else if q = countSql "orders" then
        .ok { rows := [[("count", .vstr cs)]], rowCount := 1, fields := [] }
      else .error "unexpected statement" }

/-- Rows of `orders` after inserting two records. -/
def ordersRows : List Row :=
  [[("id", .vint 1), ("customer_id", .vint 7)],
   [("id", .vint 2), ("customer_id", .vnull)]]

set_option maxRecDepth 8192 in
/-- Witness for C8: the descriptor of `orders` matches the known definition
exactly, with `recordCount = 0` for the empty table and `recordCount = 2`
after inserting two rows. -/
theorem c8_describe_witness :
    getTableSchema (schemaWorld (tableDefOrders []) "0") storageHit 1 "orders" =
      (.ok { name := "orders"
             columns := (tableDefOrders []).columns.map encodeColumnRow
             primaryKeys := (tableDefOrders []).primaryKeys.map Val.vstr
             foreignKeys := (tableDefOrders []).foreignKeys.map encodeFkRow
             indexes := (tableDefOrders []).indexes.map encodeIndexRow
             recordCount := some 0 },
       storageHit,
       [(columnsSql, ["orders"]), (pkSql, ["orders"]), (fkSql, ["orders"]),
        (indexSql, ["orders"]), (countSql "orders", [])])
  ∧ getTableSchema (schemaWorld (tableDefOrders ordersRows) "2") storageHit 1 "orders" =
      (.ok { name := "orders"
             columns := (tableDefOrders ordersRows).columns.map encodeColumnRow
             primaryKeys := (tableDefOrders ordersRows).primaryKeys.map Val.vstr
             foreignKeys := (tableDefOrders ordersRows).foreignKeys.map encodeFkRow
             indexes := (tableDefOrders ordersRows).indexes.map encodeIndexRow
             recordCount := some 2 },
       storageHit,
       [(columnsSql, ["orders"]), (pkSql, ["orders"]), (fkSql, ["orders"]),
        (indexSql, ["orders"]), (countSql "orders", [])]) :=
  ⟨c8_describe (schemaWorld (tableDefOrders []) "0") storageHit storageHit poolA 1
      "orders" (tableDefOrders []) "0" 2 1 1 1 1 [] [] [] [] []
      (by decide) (by decide) (by decide) (by decide) (by decide) (by decide)
      (by decide),
   c8_describe (schemaWorld (tableDefOrders ordersRows) "2") storageHit storageHit poolA 1
      "orders" (tableDefOrders ordersRows) "2" 2 1 1 1 1 [] [] [] [] []
      (by decide) (by decide) (by decide) (by decide) (by decide) (by decide)
      (by decide)⟩

/-- Consume an expected literal character sequence from the front of a
character list. -/
def chompLit : List Char → List Char → Option (List Char)
  | [], rest => some rest
  | _ :: _, [] => none
  | p :: ps, c :: cs => if c = p then chompLit ps cs else none

/-- Parse of the intended row-count statement grammar
`SELECT COUNT(*) FROM "<identifier>";` where the identifier contains no
double quote: returns the table identifier the statement counts, or `none`
if the text is not of that shape.  A produced query whose parse differs
from the interpolated table name has had its syntax altered by that
name. -/
def parseCountQuery (q : String) : Option String :=
  match chompLit "SELECT COUNT(*) FROM \"".data q.data with
  | none => none
  | some rest =>
    let ident := rest.takeWhile (fun c => c != '"')
    let tail := rest.dropWhile (fun c => c != '"')
    if tail = ['"', ';'] then some (String.mk ident) else none

/-- Chomping a literal off itself (plus a remainder) yields the
remainder. -/
theorem chompLit_append (p l : List Char) : chompLit p (p ++ l) = some l := by
  induction p with
  | nil => rfl
  | cons c cs ih => simpa [chompLit] using ih

/-- takeWhile over an append whose left part satisfies the predicate. -/
theorem takeWhile_append_all (p : Char → Bool) (l r : List Char)
    (h : ∀ c ∈ l, p c = true) :
    (l ++ r).takeWhile p = l ++ r.takeWhile p := by
  induction l with
  | nil => simp
  | cons c cs ih =>
    have hc : p c = true := h c (List.mem_cons_self c cs)
    simp only [List.cons_append, List.takeWhile_cons, hc, if_true]
    rw [ih (fun x hx => h x (List.mem_cons_of_mem c hx))]

/-- dropWhile over an append whose left part satisfies the predicate. -/
theorem dropWhile_append_all (p : Char → Bool) (l r : List Char)
    (h : ∀ c ∈ l, p c = true) :
    (l ++ r).dropWhile p = r.dropWhile p := by
  induction l with
  | nil => simp
  | cons c cs ih =>
    have hc : p c = true := h c (List.mem_cons_self c cs)
    simp only [List.cons_append, List.dropWhile_cons, hc, if_true]
    exact ih (fun x hx => h x (List.mem_cons_of_mem c hx))

/-- Quote-free table names survive the interpolation: the produced count
query parses back to exactly that identifier. -/
theorem parseCountQuery_countSql (t : String) (h : ∀ c ∈ t.data, (c != '"') = true) :
    parseCountQuery (countSql t) = some t := by
  have hdata : (countSql t).data =
      "SELECT COUNT(*) FROM \"".data ++ (t.data ++ ['"', ';']) := by
    simp [countSql, String.data_append]
  unfold parseCountQuery
  rw [hdata, chompLit_append]
  have htake : (t.data ++ ['"', ';']).takeWhile (fun c => c != '"') = t.data := by
    rw [takeWhile_append_all _ _ _ h]
    simp [List.takeWhile_cons]
  have hdrop : (t.data ++ ['"', ';']).dropWhile (fun c => c != '"') = ['"', ';'] := by
    rw [dropWhile_append_all _ _ _ h]
    simp [List.dropWhile_cons]
  simp [htake, hdrop]

/-- C9: in both row-count queries the table name is interpolated into the
identifier position wrapped in double quotes with no further escaping — a
name containing a double quote alters the statement's syntax (its parse no
longer yields that name) — while the four catalog queries keep their text
independent of the table name and bind it as parameter `$1`. -/
theorem c9_identifier_quoting :
    (∀ t, countSql t = "SELECT COUNT(*) FROM \"" ++ t ++ "\";")
  ∧ (∀ t, (∀ c ∈ t.data, (c != '"') = true) →
      parseCountQuery (countSql t) = some t)
  ∧ parseCountQuery (countSql "bad\"name") = none
  ∧ (∀ w s connectionId table,
      (getTableSchema w s connectionId table).2.2 <+:
        [(columnsSql, [table]), (pkSql, [table]), (fkSql, [table]),
         (indexSql, [table]), (countSql table, [])])
  ∧ (∀ w s connectionId table page pageSize,
      (getTableData w s connectionId table page pageSize).2.2 <+:
        [(countSql table, []),
         (dataSql table pageSize ((page - 1) * pageSize), [])]) := by
  refine ⟨fun t => rfl, parseCountQuery_countSql, by decide, ?_, ?_⟩
  · intro w s connectionId table
    unfold getTableSchema
    dsimp only
    repeat' split
    all_goals exact ⟨_, rfl⟩
  · intro w s connectionId table page pageSize
    unfold getTableData
    dsimp only
    repeat' split
    all_goals exact ⟨_, rfl⟩

/-- Witness for C9 at concrete inputs: the quote-free name `t` round-trips
through the interpolated count query, and concrete introspector/reader runs
issue only the expected query list. -/
theorem c9_identifier_quoting_witness :
    countSql "t" = "SELECT COUNT(*) FROM \"t\";"
  ∧ parseCountQuery (countSql "t") = some "t"
  ∧ (getTableSchema (schemaWorld (tableDefOrders []) "0") storageHit 1 "orders").2.2 <+:
      [(columnsSql, ["orders"]), (pkSql, ["orders"]), (fkSql, ["orders"]),
       (indexSql, ["orders"]), (countSql "orders", [])]
  ∧ (getTableData worldPag storageHit 1 "t" 1 10).2.2 <+:
      [(countSql "t", []), (dataSql "t" 10 0, [])] :=
  ⟨c9_identifier_quoting.1 "t",
   c9_identifier_quoting.2.1 "t" (by decide),
   c9_identifier_quoting.2.2.2.1 (schemaWorld (tableDefOrders []) "0") storageHit 1 "orders",
   c9_identifier_quoting.2.2.2.2 worldPag storageHit 1 "t" 1 10⟩

/-- Stable insertion of a profile into a name-ordered list (model of the
ordering `orderBy(dbConnections.name)` imposes). -/
def insertByName (c : DbConnection) : List DbConnection → List DbConnection
  | [] => [c]
  | d :: ds => if d.name < c.name then d :: insertByName c ds else c :: d :: ds

/-- Name-ordered view of the metadata table. -/
def sortByName : List DbConnection → List DbConnection
  | [] => []
  | c :: cs => insertByName c (sortByName cs)

/-- Embedding of `DatabaseStorage.getConnections`: all profiles ordered by
display name. -/
def getConnections (s : Storage) : List DbConnection :=
  sortByName s.profiles

/-- Embedding of the `GET /api/connections` handler: every returned profile
goes through `{ ...conn, password: undefined }`. -/
def getConnectionsRoute (s : Storage) : HttpResponse :=
  { status := 200, body := .connectionList ((getConnections s).map sanitize) }

/-- Embedding of the `GET /api/connections/:id` handler: 404 when absent,
otherwise the profile with the password destructured away. -/
def getConnectionRoute (s : Storage) (id : Nat) : HttpResponse :=
  match getConnection s id with
  | none => { status := 404, body := .message "Connection not found" }
  | some c => { status := 200, body := .connection (sanitize c) }

/-- JavaScript truthiness of an optional string field. -/
def truthyStr : Option String → Bool
  | some t => t != ""
  | none => false

/-- JavaScript truthiness of an optional numeric field. -/
def truthyNat : Option Nat → Bool
  | some n => n != 0
  | none => false

/-- JavaScript `a || b` over an optional string field. -/
def orStr (o : Option String) (d : String) : String :=
  if truthyStr o then o.getD d else d

/-- JavaScript `a || b` over an optional numeric field. -/
def orNat (o : Option Nat) (d : Nat) : Nat :=
  if truthyNat o then o.getD d else d

/-- Connection-affecting test of the PUT handler:
`updateData.host || updateData.port || updateData.database ||
updateData.username || updateData.password || updateData.ssl !== undefined`. -/
def connAffecting (u : UpdateDbConnection) : Bool :=
  truthyStr u.host || truthyNat u.port || truthyStr u.database ||
    truthyStr u.username || truthyStr u.password || u.ssl.isSome

/-- Candidate profile the PUT handler probes: updates merged over the
current row with `||` (so empty-string and zero updates fall back to the
current value), except `ssl`, which uses an `!== undefined` check. -/
def mergeForTest (u : UpdateDbConnection) (cur : DbConnection) : InsertDbConnection :=
  { name := orStr u.name cur.name
    host := orStr u.host cur.host
    port := orNat u.port cur.port
    database := orStr u.database cur.database
    username := orStr u.username cur.username
    password := orStr u.password cur.password
    ssl := u.ssl.getD cur.ssl }

/-- Tail of the PUT handler: persist the partial update and answer 404 or
the sanitized updated row. -/
def putFinish (s : Storage) (id : Nat) (u : UpdateDbConnection) :
    HttpResponse × Storage :=
  match updateConnection s id u with
  | (none, s') => ({ status := 404, body := .message "Connection not found" }, s')
  | (some updated, s') =>
    ({ status := 200, body := .connection (sanitize updated) }, s')

/-- Embedding of the `PUT /api/connections/:id` handler for an
already-validated partial body.  When a connection-affecting field is
present it loads the current row (404 when absent), probes the merged
candidate — as in POST, `testConnection` never rejects, so the catch-400
branch is dead and the boolean is discarded — then persists and responds
with the password-stripped updated row. -/
def putConnectionRoute (w : World) (s : Storage) (id : Nat)
    (u : UpdateDbConnection) : HttpResponse × Storage :=
  if connAffecting u then
    match getConnection s id with
    | none => ({ status := 404, body := .message "Connection not found" }, s)
    | some cur =>
      let probe := testConnection w s (mergeForTest u cur)
      putFinish probe.2.1 id u
  else
    putFinish s id u

/-- Rewrite one profile's stored password (identifier-indexed). -/
def pwSet (f : Nat → String) (c : DbConnection) : DbConnection :=
  { c with password := f c.id }

/-- Rewrite every stored password in the metadata store. -/
def pwRewrite (f : Nat → String) (s : Storage) : Storage :=
  { s with profiles := s.profiles.map (pwSet f) }

/-- Password rewriting keeps the display name. -/
theorem pwSet_name (f : Nat → String) (c : DbConnection) :
    (pwSet f c).name = c.name := rfl

/-- Password rewriting commutes with name-ordered insertion. -/
theorem insertByName_pwSet (f : Nat → String) (c : DbConnection)
    (l : List DbConnection) :
    insertByName (pwSet f c) (l.map (pwSet f)) = (insertByName c l).map (pwSet f) := by
  induction l with
  | nil => rfl
  | cons d ds ih =>
    simp only [List.map_cons, insertByName, pwSet_name]
    by_cases hlt : d.name < c.name
    · rw [if_pos hlt, if_pos hlt, ih]
      rfl
    · rw [if_neg hlt, if_neg hlt]
      rfl

/-- Password rewriting commutes with the name ordering. -/
theorem sortByName_pwSet (f : Nat → String) (l : List DbConnection) :
    sortByName (l.map (pwSet f)) = (sortByName l).map (pwSet f) := by
  induction l with
  | nil => rfl
  | cons c cs ih => simp [sortByName, ih, insertByName_pwSet]

/-- Password rewriting commutes with the by-identifier profile lookup. -/
theorem getConnection_pwRewrite (f : Nat → String) (s : Storage) (id : Nat) :
    getConnection (pwRewrite f s) id = (getConnection s id).map (pwSet f) := by
  show (s.profiles.map (pwSet f)).find? (fun c => c.id == id) = _
  rw [List.find?_map]
  rfl

/-- The probe leaves the storage argument untouched on every path. -/
theorem testConnection_storage (w : World) (s : Storage)
    (connection : InsertDbConnection) :
    (testConnection w s connection).2.1 = s := by
  by_cases hc : w.connectOk (testPoolConfigOf connection) = true <;>
    by_cases he : w.endOk (testPoolConfigOf connection) = true <;>
    simp [testConnection, hc, he]

/-- The PUT tail's response ignores stored passwords. -/
theorem putFinish_pwRewrite (f : Nat → String) (s : Storage) (id : Nat)
    (u : UpdateDbConnection) :
    (putFinish (pwRewrite f s) id u).1 = (putFinish s id u).1 := by
  unfold putFinish updateConnection
  rw [getConnection_pwRewrite]
  cases hg : getConnection s id with
  | none => rfl
  | some c => rfl

/-- C10: none of the four profile-returning handlers lets the stored
password reach the response — rewriting every stored password (and, for
create, the submitted one) leaves each handler's response unchanged, and
the response types carry no password member at all. -/
theorem c10_password_noninterference (f : Nat → String) (s : Storage) (id : Nat)
    (w : World) (u : UpdateDbConnection) (b : InsertDbConnection) (p : String) :
    getConnectionsRoute (pwRewrite f s) = getConnectionsRoute s
  ∧ getConnectionRoute (pwRewrite f s) id = getConnectionRoute s id
  ∧ (postConnections w (pwRewrite f s) b).1 = (postConnections w s b).1
  ∧ (postConnections w s { b with password := p }).1 = (postConnections w s b).1
  ∧ (putConnectionRoute w (pwRewrite f s) id u).1 = (putConnectionRoute w s id u).1 := by
  refine ⟨?_, ?_, ?_, ?_, ?_⟩
  case refine_3 =>
    simp only [postConnections, testConnection_storage]
    rfl
  case refine_4 =>
    simp only [postConnections, testConnection_storage]
    rfl
  · show { status := 200,
           body := .connectionList ((sortByName (s.profiles.map (pwSet f))).map sanitize) }
      = ({ status := 200,
           body := .connectionList ((sortByName s.profiles).map sanitize) } : HttpResponse)
    rw [sortByName_pwSet, List.map_map]
    rfl
  · unfold getConnectionRoute
    rw [getConnection_pwRewrite]
    cases hg : getConnection s id with
    | none => rfl
    | some c => rfl
  · unfold putConnectionRoute
    rw [getConnection_pwRewrite]
    cases hg : getConnection s id with
    | none =>
      cases hca : connAffecting u <;>
        simp [putFinish_pwRewrite, testConnection_storage]
    | some c =>
      cases hca : connAffecting u <;>
        simp [putFinish_pwRewrite, testConnection_storage]

end TestDb
